import Mathlib

/-!
Shallow embedding of the outlet-pressure feedback controller of
`src/Artery.py` (functions `beta`, lines 175-185, and the pressure-update
part of `temporal_hook`, lines 191-244).

Real-valued quantities of the Python code are modelled as `ℝ`; Python float
division by zero raises `ZeroDivisionError`, which is modelled by an
`Except` result.  The exponentiation `M_err ** E` of the code is real
exponentiation, modelled with `Real.rpow` (the `ℝ ^ ℝ` power).
-/

namespace VaMPy

/-- Exception kinds.  `zeroDivisionError` is what CPython raises when a float
division by zero is executed (possible at `src/Artery.py` lines 219, 221, 225,
227 and 231); `nameError` is what CPython raises at line 231 when the loop over
`id_out` never ran, leaving `R_optimal` unbound.  The constructors
`measurementError` and `configurationError` are Modelled from the spec: the
error taxonomy of spec sections 4.1 and 7 (`MeasurementError`,
`ConfigurationError`) names exception classes that do not occur anywhere in
the source. -/
inductive Exc where
  | zeroDivisionError
  | nameError
  | measurementError
  | configurationError
deriving DecidableEq, Repr

/-- Source `beta(err, p)`, `src/Artery.py` lines 175-185. -/
noncomputable def beta (err p : ℝ) : ℝ :=
  if p < 0 then
    if err ≥ 0.1 then 0.5 else 1 - 5 * err ^ 2
  else
    if err ≥ 0.1 then 1.5 else 1 + 5 * err ^ 2

/-- Per-outlet pressure update law of `temporal_hook`, `src/Artery.py`
lines 214-244, read as the spec's `update(outlet_state, q_in, q_out,
timestep)` operation (spec section 4.1): the body that the source executes
for one outlet when its loop variables are the ones that survive to the
dedented block.  Guards mirror, in source order, the float divisions that
raise `ZeroDivisionError`:
line 219 `R_actual = Q_out / Q_in` (needs `q_in ≠ 0`),
line 221 `M_err = abs(R_optimal / R_actual)` (needs `R_actual ≠ 0`),
lines 225/227 `R_err / R_optimal` and line 231 `delta = (R_optimal -
R_actual) / R_optimal` (need `R_optimal ≠ 0`). -/
noncomputable def update (area_ratio q_in q_out p_old : ℝ) (tstep : ℕ) :
    Except Exc ℝ :=
  if q_in = 0 then .error .zeroDivisionError else
  let R_optimal : ℝ := area_ratio
  let R_actual : ℝ := q_out / q_in
  if R_actual = 0 then .error .zeroDivisionError else
  let M_err : ℝ := |R_optimal / R_actual|
  let R_err : ℝ := |R_optimal - R_actual|
  if R_optimal = 0 then .error .zeroDivisionError else
  let E : ℝ := if p_old < 0 then 1 + R_err / R_optimal
               else -(1 + R_err / R_optimal)
  let delta : ℝ := (R_optimal - R_actual) / R_optimal
  if tstep < 100 then
    if p_old > 1 ∧ delta < 0 then .ok p_old
    else .ok (p_old * (1 - delta * 0.1))
  else
    if p_old > 2 ∧ delta < 0 then .ok p_old
    else .ok (p_old * beta R_err p_old * M_err ^ E)

/-- Early-transient branch of the update (`src/Artery.py` lines 230-237),
factored out: linear relaxation with gain `h = 0.1`, with the
anti-overshoot clamp `p_old > 1 and delta < 0`. -/
noncomputable def earlyLaw (area_ratio q_in q_out p_old : ℝ) : ℝ :=
  let delta : ℝ := (area_ratio - q_out / q_in) / area_ratio
  if p_old > 1 ∧ delta < 0 then p_old
  else p_old * (1 - delta * 0.1)

/-- Steady-state (dual-pressure) branch of the update (`src/Artery.py`
lines 239-244), factored out, with the clamp `p_old > 2 and delta < 0`. -/
noncomputable def steadyLaw (area_ratio q_in q_out p_old : ℝ) : ℝ :=
  let R_actual : ℝ := q_out / q_in
  let M_err : ℝ := |area_ratio / R_actual|
  let R_err : ℝ := |area_ratio - R_actual|
  let E : ℝ := if p_old < 0 then 1 + R_err / area_ratio
               else -(1 + R_err / area_ratio)
  let delta : ℝ := (area_ratio - R_actual) / area_ratio
  if p_old > 2 ∧ delta < 0 then p_old
  else p_old * beta R_err p_old * M_err ^ E

/-- State of one outlet as seen by `temporal_hook`: its target split
`area_ratio[i]`, the flux `Q_out` measured at it this timestep (the code
takes `abs(assemble(...))`; the measurement itself is external), and the
current pressure `NS_expressions[out_id].p`. -/
structure Outlet where
  area_ratio : ℝ
  q_out : ℝ
  p : ℝ

/-- Loop variables of `for i, out_id in enumerate(id_out)` that are still
bound after the loop ends (`src/Artery.py` lines 208-227): the values from
the LAST iteration, used by the dedented lines 230-244. -/
structure LoopVars where
  Ro : ℝ
  Ra : ℝ
  Me : ℝ
  Re : ℝ
  E : ℝ
  p_old : ℝ

/-- One iteration of the loop body, `src/Artery.py` lines 209-227: computes
`R_actual`, `M_err`, `R_err` and `E` for outlet `o`, raising
`ZeroDivisionError` exactly where CPython would. -/
noncomputable def loopIter (q_in : ℝ) (o : Outlet) : Except Exc LoopVars :=
  if q_in = 0 then .error .zeroDivisionError else
  let R_actual : ℝ := o.q_out / q_in
  if R_actual = 0 then .error .zeroDivisionError else
  let M_err : ℝ := |o.area_ratio / R_actual|
  let R_err : ℝ := |o.area_ratio - R_actual|
  if o.area_ratio = 0 then .error .zeroDivisionError else
  let E : ℝ := if o.p < 0 then 1 + R_err / o.area_ratio
               else -(1 + R_err / o.area_ratio)
  .ok ⟨o.area_ratio, R_actual, M_err, R_err, E, o.p⟩

/-- Runs the loop over all outlets in order; an exception in any iteration
aborts, and otherwise the variables of the last iteration (`none` when
`id_out` is empty) remain bound. -/
noncomputable def runLoop (q_in : ℝ) : List Outlet → Except Exc (Option LoopVars)
  | [] => .ok none
  | o :: rest =>
    match loopIter q_in o with
    | .error e => .error e
    | .ok v =>
      match runLoop q_in rest with
      | .error e => .error e
      | .ok none => .ok (some v)
      | .ok (some w) => .ok (some w)

/-- Writes `x` into the pressure of the last outlet of the list
(`NS_expressions[out_id].p = ...` with `out_id` left bound to the last id). -/
def setLastP : List Outlet → ℝ → List Outlet
  | [], _ => []
  | [o], x => [{ o with p := x }]
  | o :: o2 :: rest, x => o :: setLastP (o2 :: rest) x

/-- Body of the sampled part of `temporal_hook` (`src/Artery.py` lines
203-244): run the per-outlet loop, then execute the dedented update block
(lines 230-244) once, with the last iteration's variables, writing only the
last outlet's pressure.  On an empty `id_out` line 231 raises `NameError`
(`R_optimal` unbound). -/
noncomputable def hookBody (tstep : ℕ) (q_in : ℝ) (outs : List Outlet) :
    Except Exc (List Outlet) :=
  match runLoop q_in outs with
  | .error e => .error e
  | .ok none => .error .nameError
  | .ok (some v) =>
    let delta : ℝ := (v.Ro - v.Ra) / v.Ro
    let pnew : ℝ :=
      if tstep < 100 then
        if v.p_old > 1 ∧ delta < 0 then v.p_old
        else v.p_old * (1 - delta * 0.1)
      else
        if v.p_old > 2 ∧ delta < 0 then v.p_old
        else v.p_old * beta v.Re v.p_old * v.Me ^ v.E
    .ok (setLastP outs pnew)

/-- Pressure-update part of `temporal_hook` (`src/Artery.py` lines 191-244):
the flux measurement and pressure update run only under the sampling guard
`tstep > 2 and tstep % 1 == 0` of line 201. -/
noncomputable def temporal_hook (tstep : ℕ) (q_in : ℝ) (outs : List Outlet) :
    Except Exc (List Outlet) :=
  if 2 < tstep ∧ tstep % 1 = 0 then hookBody tstep q_in outs
  else .ok outs

/-! ## Helper lemmas -/

/-- Under the guards that no division by zero occurs, `update` reduces to the
branch law selected by `tstep < 100`. -/
lemma update_eq_laws (a qi qo p : ℝ) (t : ℕ)
    (ha : a ≠ 0) (hqi : qi ≠ 0) (hqo : qo ≠ 0) :
    update a qi qo p t =
      .ok (if t < 100 then earlyLaw a qi qo p else steadyLaw a qi qo p) := by
  have hRa : qo / qi ≠ 0 := div_ne_zero hqo hqi
  by_cases ht : t < 100 <;>
    simp [update, earlyLaw, steadyLaw, ha, hqi, hRa, ht] <;>
    split <;> rfl

/-- For a nonnegative error, `beta` is strictly positive. -/
lemma beta_pos (err p : ℝ) (h : 0 ≤ err) : 0 < beta err p := by
  unfold beta
  by_cases hp : p < 0 <;> by_cases he : err ≥ 0.1 <;>
    simp [hp, he] <;> nlinarith [sq_nonneg err]

/-! ## Claim theorems -/

/-- Claim C6: `beta(err, p)` is exactly the four-branch piecewise function of
the source (0.5 / 1 - 5 err² for negative pressure, 1.5 / 1 + 5 err² for
nonnegative pressure, split at err = 0.1), and it is discontinuous at
err = 0.1: for p = -1, `beta 0.0999 (-1) = 1 - 5·0.0999²` (near 1) while
`beta 0.1 (-1) = 0.5`. -/
theorem claim6_beta_piecewise :
    (∀ err p : ℝ, beta err p =
      if p < 0 then (if err ≥ 0.1 then 0.5 else 1 - 5 * err ^ 2)
      else (if err ≥ 0.1 then 1.5 else 1 + 5 * err ^ 2)) ∧
    beta 0.0999 (-1) = 1 - 5 * (0.0999 : ℝ) ^ 2 ∧
    beta 0.1 (-1) = 0.5 ∧
    beta 0.1 (-1) < beta 0.0999 (-1) := by
  refine ⟨fun err p => rfl, ?_, ?_, ?_⟩ <;> norm_num [beta]

/-- Claim C9: the flux measurement and pressure update run exactly under the
guard `tstep > 2 and tstep % 1 == 0` of `src/Artery.py` line 201; the modulo
condition holds at every timestep, so the guard is exactly `tstep > 2`, and
for `tstep ≤ 2` the hook leaves every outlet pressure unchanged. -/
theorem claim9_cadence (tstep : ℕ) (q_in : ℝ) (outs : List Outlet) :
    ((2 < tstep ∧ tstep % 1 = 0) ↔ 2 < tstep) ∧
    (tstep ≤ 2 → temporal_hook tstep q_in outs = .ok outs) ∧
    (2 < tstep → temporal_hook tstep q_in outs = hookBody tstep q_in outs) := by
  refine ⟨by simp [Nat.mod_one], fun h => ?_, fun h => ?_⟩
  · have h2 : ¬ 2 < tstep := by omega
    simp [temporal_hook, h2]
  · simp [temporal_hook, Nat.mod_one, h]

/-- Witness for C9 at `tstep = 2`: the hook is the identity on the pressures. -/
theorem claim9_witness :
    temporal_hook 2 (5 : ℝ) [⟨1/2, 1, 1⟩] = .ok [⟨1/2, 1, 1⟩] :=
  (claim9_cadence 2 5 [⟨1/2, 1, 1⟩]).2.1 (by norm_num)

/-- Claim C3: for every valid input the update applies the early-transient
linear law (with its clamp) exactly when `tstep < 100` and the steady-state
dual-pressure law (with its clamp) exactly when `tstep ≥ 100`: the regime
switch happens once, at `tstep = 100`, and is irreversible. -/
theorem claim3_regime (a qi qo p : ℝ) (t : ℕ)
    (ha : a ≠ 0) (hqi : qi ≠ 0) (hqo : qo ≠ 0) :
    update a qi qo p t =
      .ok (if t < 100 then earlyLaw a qi qo p else steadyLaw a qi qo p) :=
  update_eq_laws a qi qo p t ha hqi hqo

/-- Witness for C3 at `tstep = 99` (early regime side of the boundary). -/
theorem claim3_witness :
    update (1/2) 2 1 1 99 =
      .ok (if 99 < 100 then earlyLaw (1/2) 2 1 1 else steadyLaw (1/2) 2 1 1) :=
  claim3_regime (1/2) 2 1 1 99 (by norm_num) (by norm_num) (by norm_num)

/-- Claim C7: in the steady-state law the exponent is
`E = 1 + R_err / R_optimal` when `p_old < 0` and `E = -(1 + R_err /
R_optimal)` otherwise, with `R_err = |R_optimal - R_actual|` and
`R_optimal = area_ratio`. -/
theorem claim7_exponent (a qi qo p : ℝ) (t : ℕ)
    (ha : a ≠ 0) (hqi : qi ≠ 0) (hqo : qo ≠ 0) (ht : 100 ≤ t) :
    update a qi qo p t =
      .ok (if p > 2 ∧ (a - qo / qi) / a < 0 then p
           else p * beta |a - qo / qi| p *
             |a / (qo / qi)| ^
               (if p < 0 then 1 + |a - qo / qi| / a
                else -(1 + |a - qo / qi| / a))) := by
  rw [update_eq_laws a qi qo p t ha hqi hqo, if_neg (by omega)]
  rfl

/-- Witness for C7 at a concrete steady-state input. -/
theorem claim7_witness :
    update (1/2) 2 1 1 200 =
      .ok (if (1:ℝ) > 2 ∧ ((1:ℝ)/2 - 1 / 2) / (1/2) < 0 then 1
           else 1 * beta |(1:ℝ)/2 - 1 / 2| 1 *
             |(1:ℝ)/2 / (1 / 2)| ^
               (if (1:ℝ) < 0 then 1 + |(1:ℝ)/2 - 1 / 2| / (1/2)
                else -(1 + |(1:ℝ)/2 - 1 / 2| / (1/2)))) :=
  claim7_exponent (1/2) 2 1 1 200 (by norm_num) (by norm_num) (by norm_num)
    (by norm_num)

/-- Claim C8: the anti-overshoot clamp — when `delta < 0` and the old
pressure exceeds the regime threshold (1 in the early regime, 2 in the
steady regime), the update returns the old pressure unchanged. -/
theorem claim8_clamp (a qi qo p : ℝ) (t : ℕ)
    (ha : a ≠ 0) (hqi : qi ≠ 0) (hqo : qo ≠ 0)
    (hd : (a - qo / qi) / a < 0) :
    (t < 100 → 1 < p → update a qi qo p t = .ok p) ∧
    (100 ≤ t → 2 < p → update a qi qo p t = .ok p) := by
  have hRa : qo / qi ≠ 0 := div_ne_zero hqo hqi
  constructor
  · intro ht hp
    simp [update, ha, hqi, hRa, ht, hp, hd]
  · intro ht hp
    have ht' : ¬ t < 100 := by omega
    simp [update, ha, hqi, hRa, ht', hp, hd]

/-- Witness for C8: the claim's concrete instance `pressure_old = 1.5`,
`delta = -0.01`, `timestep = 50` (realized by `area_ratio = 1`,
`q_in = 100`, `q_out = 101`) holds the pressure unchanged. -/
theorem claim8_witness : update 1 100 101 (3/2) 50 = .ok (3/2) :=
  (claim8_clamp 1 100 101 (3/2) 50 (by norm_num) (by norm_num) (by norm_num)
    (by norm_num)).1 (by norm_num) (by norm_num)

/-- Claim C4 counterexample: at `q_in = 0` and at `area_ratio = 0` the code
raises `ZeroDivisionError` — not a `MeasurementError` or a
`ConfigurationError`, classes that exist nowhere in the source. -/
theorem claim4_counterexample :
    update (3/10) 0 2 1 50 = .error .zeroDivisionError ∧
    update 0 10 2 1 50 = .error .zeroDivisionError := by
  constructor <;> norm_num [update]

/-- Claim C4 (amended): the update fails with Python's `ZeroDivisionError`
both when `q_in = 0` and when `area_ratio = 0` (no value, hence no NaN or
infinity, is returned in either case). -/
theorem claim4_zero_division (a qi qo p : ℝ) (t : ℕ) (hqi : qi ≠ 0) :
    update a 0 qo p t = .error .zeroDivisionError ∧
    update 0 qi qo p t = .error .zeroDivisionError := by
  constructor
  · simp [update]
  · by_cases hqo : qo / qi = 0 <;> simp [update, hqi, hqo]

/-- Witness for the amended C4 at concrete inputs. -/
theorem claim4_witness :
    update (2/5) 0 3 (-1) 200 = .error .zeroDivisionError ∧
    update 0 7 3 (-1) 200 = .error .zeroDivisionError :=
  claim4_zero_division (2/5) 7 3 (-1) 200 (by norm_num)

/-- Claim C5 counterexample: the input `area_ratio = 1/2 ∈ (0,1)`,
`q_in = 1 > 0`, `q_out = 0 ≥ 0` is inside the claim's domain, yet the update
raises `ZeroDivisionError` (at `M_err = abs(R_optimal / R_actual)` with
`R_actual = 0`) instead of returning a finite number. -/
theorem claim5_counterexample :
    0 < (1/2 : ℝ) ∧ (1/2 : ℝ) < 1 ∧ 0 < (1 : ℝ) ∧
    update (1/2) 1 0 1 50 = .error .zeroDivisionError := by
  norm_num [update]

/-- Claim C5 (amended): for `area_ratio ∈ (0,1)`, `q_in > 0` and `q_out > 0`
(strictly — `q_out = 0` raises `ZeroDivisionError`), the update returns a
value, and in the exact real-number model every returned value is a finite
real. -/
theorem claim5_total (a qi qo p : ℝ) (t : ℕ)
    (h1 : 0 < a) (h2 : a < 1) (h3 : 0 < qi) (h4 : 0 < qo) :
    ∃ r : ℝ, update a qi qo p t = .ok r := by
  rw [update_eq_laws a qi qo p t (ne_of_gt h1) (ne_of_gt h3) (ne_of_gt h4)]
  exact ⟨_, rfl⟩

/-- Witness for the amended C5 at a concrete input. -/
theorem claim5_witness : ∃ r : ℝ, update (1/2) 2 1 1 50 = .ok r :=
  claim5_total (1/2) 2 1 1 50 (by norm_num) (by norm_num) (by norm_num)
    (by norm_num)

/-- Claim C1: evaluation at the failing input.  Two outlets with
`area_ratio = [1/2, 1/2]`, `q_in = 2`, measured fluxes `[2, 1]`, pressures
`[1, 1]`, at `tstep = 50`: the hook leaves the first outlet's pressure at 1
(the dedented block of `src/Artery.py` lines 230-244 runs only with the last
iteration's loop variables), while the update law applied to the first
outlet's own data gives 11/10.  Only the last outlet is ever written. -/
theorem claim1_last_outlet_only :
    temporal_hook 50 2 [⟨1/2, 2, 1⟩, ⟨1/2, 1, 1⟩] =
      .ok [⟨1/2, 2, 1⟩, ⟨1/2, 1, 1⟩] ∧
    update (1/2) 2 2 1 50 = .ok (11/10) := by
  constructor
  · norm_num [temporal_hook, hookBody, runLoop, loopIter, setLastP]
  · norm_num [update]

/-- Early-transient branch as a strictly positive multiple of the old
pressure: the clamp has factor 1, and otherwise the factor
`1 - delta·0.1` exceeds 0.9 because `delta < 1` whenever all of
`area_ratio`, `q_in`, `q_out` are positive. -/
lemma earlyLaw_factor (a qi qo p : ℝ)
    (ha : 0 < a) (hqi : 0 < qi) (hqo : 0 < qo) :
    ∃ k : ℝ, 0 < k ∧ earlyLaw a qi qo p = p * k := by
  by_cases hc : p > 1 ∧ (a - qo / qi) / a < 0
  · exact ⟨1, one_pos, by simp [earlyLaw, hc]⟩
  · refine ⟨1 - (a - qo / qi) / a * 0.1, ?_, by simp [earlyLaw, hc]⟩
    have hra : 0 < qo / qi := div_pos hqo hqi
    have hda : (a - qo / qi) / a < 1 := by
      rw [div_lt_one ha]; linarith
    nlinarith

/-- Steady-state branch as a strictly positive multiple of the old pressure:
the clamp has factor 1, and otherwise the factor is
`beta R_err p · M_err ^ E` with `beta > 0` and `M_err ^ E > 0`. -/
lemma steadyLaw_factor (a qi qo p : ℝ)
    (ha : 0 < a) (hqi : 0 < qi) (hqo : 0 < qo) :
    ∃ k : ℝ, 0 < k ∧ steadyLaw a qi qo p = p * k := by
  by_cases hc : p > 2 ∧ (a - qo / qi) / a < 0
  · exact ⟨1, one_pos, by simp [steadyLaw, hc]⟩
  · refine ⟨beta |a - qo / qi| p *
      |a / (qo / qi)| ^
        (if p < 0 then 1 + |a - qo / qi| / a
         else -(1 + |a - qo / qi| / a)), ?_, ?_⟩
    · have h1 : 0 < beta |a - qo / qi| p := beta_pos _ _ (abs_nonneg _)
      have h2 : 0 < |a / (qo / qi)| :=
        abs_pos.mpr (div_ne_zero (ne_of_gt ha)
          (ne_of_gt (div_pos hqo hqi)))
      exact mul_pos h1 (Real.rpow_pos_of_pos h2 _)
    · simp [steadyLaw, hc, mul_assoc]

/-- Claim C10: sign preservation — with positive `area_ratio`, `q_in` and
`q_out`, every branch of the update multiplies the old pressure by a
strictly positive factor (or holds it), so the returned pressure has the
same sign as the old one. -/
theorem claim10_sign (a qi qo p : ℝ) (t : ℕ)
    (ha : 0 < a) (hqi : 0 < qi) (hqo : 0 < qo) :
    ∃ r : ℝ, update a qi qo p t = .ok r ∧
      (0 < p → 0 < r) ∧ (p < 0 → r < 0) ∧ (p = 0 → r = 0) := by
  rw [update_eq_laws a qi qo p t (ne_of_gt ha) (ne_of_gt hqi) (ne_of_gt hqo)]
  by_cases ht : t < 100
  · obtain ⟨k, hk, he⟩ := earlyLaw_factor a qi qo p ha hqi hqo
    rw [if_pos ht]
    refine ⟨earlyLaw a qi qo p, rfl, ?_, ?_, ?_⟩ <;> intro hp <;> rw [he]
    · exact mul_pos hp hk
    · exact mul_neg_of_neg_of_pos hp hk
    · rw [hp, zero_mul]
  · obtain ⟨k, hk, he⟩ := steadyLaw_factor a qi qo p ha hqi hqo
    rw [if_neg ht]
    refine ⟨steadyLaw a qi qo p, rfl, ?_, ?_, ?_⟩ <;> intro hp <;> rw [he]
    · exact mul_pos hp hk
    · exact mul_neg_of_neg_of_pos hp hk
    · rw [hp, zero_mul]

/-- Witness for C10 at a concrete steady-state input with negative old
pressure. -/
theorem claim10_witness :
    ∃ r : ℝ, update (1/2) 2 1 (-1) 200 = .ok r ∧
      (0 < (-1:ℝ) → 0 < r) ∧ ((-1:ℝ) < 0 → r < 0) ∧ ((-1:ℝ) = 0 → r = 0) :=
  claim10_sign (1/2) 2 1 (-1) 200 (by norm_num) (by norm_num) (by norm_num)

/-- Cube of the steady-state power of claim C2's example:
`((3/2) ^ (-4/3))³ = (3/2)⁻⁴ = 16/81`. -/
lemma c2_pow_cube : (((3:ℝ)/2) ^ (-(4/3 : ℝ))) ^ (3:ℕ) = 16/81 := by
  have h32 : (0:ℝ) ≤ 3/2 := by norm_num
  rw [← Real.rpow_natCast (((3:ℝ)/2) ^ (-(4/3 : ℝ))) 3, ← Real.rpow_mul h32]
  rw [show (-(4/3 : ℝ) * (3:ℕ)) = ((-4 : ℤ) : ℝ) by push_cast; ring]
  rw [Real.rpow_intCast]
  norm_num

/-- Rational bounds on `(3/2) ^ (-4/3)`, obtained by comparing cubes with
`16/81`. -/
lemma c2_pow_bounds :
    (0.58238 : ℝ) < ((3:ℝ)/2) ^ (-(4/3 : ℝ)) ∧
    ((3:ℝ)/2) ^ (-(4/3 : ℝ)) < 0.582393 := by
  have hpos : 0 < ((3:ℝ)/2) ^ (-(4/3 : ℝ)) :=
    Real.rpow_pos_of_pos (by norm_num) _
  constructor
  · by_contra h
    push_neg at h
    have h3 := pow_le_pow_left₀ (le_of_lt hpos) h 3
    rw [c2_pow_cube] at h3
    norm_num at h3
  · by_contra h
    push_neg at h
    have h3 := pow_le_pow_left₀ (by norm_num : (0:ℝ) ≤ 0.582393) h 3
    rw [c2_pow_cube] at h3
    norm_num at h3

/-- Claim C2 counterexample: at `area_ratio = 0.3`, `q_in = 10`, `q_out = 2`,
`pressure_old = 1`, `timestep = 200` the update does return
`1 · beta(0.1, 1) · 1.5^(-4/3) = (3/2) · (3/2)^(-4/3)`, but that number is
`1.5^(-1/3) ≈ 0.8736`, more than `1e-6` away from the claim's `0.568` (the
claim mis-evaluates `1.5^(-1.333...)` as `0.379`). -/
theorem claim2_counterexample :
    update (3/10) 10 2 1 200 =
      .ok (((3:ℝ)/2) * ((3:ℝ)/2) ^ (-(4/3 : ℝ))) ∧
    1e-6 < |((3:ℝ)/2) * ((3:ℝ)/2) ^ (-(4/3 : ℝ)) - 0.568| := by
  constructor
  · norm_num [update, beta, abs_of_pos]
  · have h := c2_pow_bounds.1
    have habs : ((3:ℝ)/2) * ((3:ℝ)/2) ^ (-(4/3 : ℝ)) - 0.568 ≤
        |((3:ℝ)/2) * ((3:ℝ)/2) ^ (-(4/3 : ℝ)) - 0.568| := le_abs_self _
    nlinarith

/-- Claim C2 (amended): with `area_ratio = 0.3`, `q_in = 10`, `q_out = 2`,
`pressure_old = 1`, `timestep = 200`, the update computes `R_actual = 0.2`,
`R_err = 0.1`, `M_err = 1.5`, `E = -(1 + 0.1/0.3) = -4/3`, `beta = 1.5`, and
returns `1 · 1.5 · 1.5^(-4/3) = 1.5^(-1/3) ≈ 0.87358`, matched here to a
tolerance of `1e-5`. -/
theorem claim2_amended :
    update (3/10) 10 2 1 200 =
      .ok (((3:ℝ)/2) * ((3:ℝ)/2) ^ (-(4/3 : ℝ))) ∧
    beta (1/10) 1 = 3/2 ∧
    |((3:ℝ)/2) * ((3:ℝ)/2) ^ (-(4/3 : ℝ)) - 0.87358| ≤ 1e-5 := by
  refine ⟨by norm_num [update, beta, abs_of_pos], by norm_num [beta], ?_⟩
  have h1 := c2_pow_bounds.1
  have h2 := c2_pow_bounds.2
  rw [abs_le]
  constructor <;> nlinarith

end VaMPy
